import Mathlib

/-!
Shallow embedding of the realtime chat page logic found in
`src/app/src/pages/Chat.jsx` (the `Chat` component): conversation-key
derivation, exclusive selection state, the message-subscription query
semantics, the AI turn handling inside `handleSubmit`, the draft handling
of `handleSubmit`, the batched forward protocol of `handleForwardMessage`,
and the presence/typing map updates.

Machine strings are modelled by `String`; the JavaScript default string
order used by `Array.prototype.sort` is modelled by a lexicographic
comparison of the character lists.  The document store (Firestore) is a
collaborator: its query semantics (equality filter, ascending order by
timestamp, result limit), its batched all-or-nothing commit and its
merge-style `set` are modelled explicitly below, following the interface
the code relies on.
-/

/-! ### Identity and key derivation -/

/-- Lexicographic comparison of character lists, modelling how JavaScript
compares two strings (and hence how the default comparator of
`Array.prototype.sort` orders them). -/
def charsLe : List Char → List Char → Bool
  | [], _ => true
  | _ :: _, [] => false
  | c :: cs, d :: ds => if c < d then true else if d < c then false else charsLe cs ds

/-- JavaScript string order on whole strings. -/
def strLe (a b : String) : Bool := charsLe a.data b.data

/-- `[a, b].sort()` for two uid strings, as in the messages query effect and
in `handleForwardMessage` of `Chat.jsx`. -/
def sortPair (a b : String) : List String :=
  if strLe a b then [a, b] else [b, a]

/-- `[uidA, uidB].sort().join('_')`: the conversation key derived in the
messages query effect (Chat.jsx lines 90 and 93) and in
`handleForwardMessage` (lines 343 and 344). -/
def conversationKey (a b : String) : String :=
  if strLe a b then a ++ "_" ++ b else b ++ "_" ++ a

/-- JavaScript `a || b` for an optional string `a` (both `null`/missing and
the empty string are falsy). -/
def jsOrString (a : Option String) (b : String) : String :=
  match a with
  | some s => if s = "" then b else s
  | none => b

/-! ### Selection state -/

/-- The slice of a user document the page uses (`uid`, display name and
avatar; further profile fields do not influence the embedded logic). -/
structure Profile where
  uid : String
  name : Option String := none
  photoURL : Option String := none
deriving DecidableEq

/-- The slice of a group document the page uses. -/
structure ChatGroup where
  id : String
deriving DecidableEq

/-- The three nullable selection fields of the `Chat` component:
`selectedUser`, `selectedGroup` and `selectedAI`. -/
structure SelState where
  selectedUser : Option Profile
  selectedGroup : Option ChatGroup
  selectedAI : Bool
deriving DecidableEq

/-- The initial selection state of the component
(`useState(null)`, `useState(null)`, `useState(false)`). -/
def initialSelState : SelState := ⟨none, none, false⟩

/-- The `onUserSelect` callback passed to `UsersList` (Chat.jsx lines
398 to 402): set the user, clear the group, clear the AI flag. -/
def onUserSelect (user : Profile) (_s : SelState) : SelState :=
  ⟨some user, none, false⟩

/-- The `onGroupSelect` callback passed to `UsersList` (Chat.jsx lines
403 to 407): set the group, clear the user, clear the AI flag. -/
def onGroupSelect (group : ChatGroup) (_s : SelState) : SelState :=
  ⟨none, some group, false⟩

/-- `handleNavigate` (Chat.jsx lines 308 to 316): navigating to the AI page
selects the AI target and clears the other two fields; navigating anywhere
else only clears the AI flag and leaves user and group untouched. -/
def handleNavigate (page : String) (s : SelState) : SelState :=
  if page = "ai" then ⟨none, none, true⟩ else { s with selectedAI := false }

/-- Number of truthy fields among `selectedUser`, `selectedGroup`,
`selectedAI`. -/
def truthyCount (s : SelState) : Nat :=
  (if s.selectedUser.isSome then 1 else 0) +
    (if s.selectedGroup.isSome then 1 else 0) +
    (if s.selectedAI then 1 else 0)

/-! ### Message subscription queries -/

/-- The routing fields of a stored message document that the subscription
queries filter on, together with its server-assigned timestamp (modelled
as a natural number). -/
structure Msg where
  conversationId : Option String := none
  groupId : Option String := none
  userId : Option String := none
  timestamp : Nat
deriving DecidableEq

/-- The query built by the messages effect: a conversation filter, a group
filter, or an AI-stream owner filter. -/
inductive MsgQuery where
  | conv (key : String)
  | group (id : String)
  | ai (uid : String)
deriving DecidableEq

/-- The query selection of the messages effect (Chat.jsx lines 87 to 114):
`selectedUser` wins over `selectedGroup`, which wins over `selectedAI`;
with no target selected no query is built (and messages are cleared). -/
def messagesQuery (currentUid : String) (s : SelState) : Option MsgQuery :=
  match s.selectedUser with
  | some u => some (.conv (conversationKey currentUid u.uid))
  | none =>
    match s.selectedGroup with
    | some g => some (.group g.id)
    | none => if s.selectedAI then some (.ai currentUid) else none

/-- The equality filter of each query (`where('conversationId', '==', k)`
and its group/AI counterparts); a document missing the field does not
match. -/
def matchesQuery : MsgQuery → Msg → Bool
  | .conv k, m => m.conversationId == some k
  | .group gid, m => m.groupId == some gid
  | .ai uid, m => m.userId == some uid

/-- Timestamp comparison used by `orderBy('timestamp', 'asc')`. -/
def tsLe (a b : Msg) : Bool := a.timestamp ≤ b.timestamp

/-- Stable insertion into a timestamp-sorted list (model of the ascending
order the store applies). -/
def insertByTs (m : Msg) : List Msg → List Msg
  | [] => [m]
  | n :: ns => if tsLe m n then m :: n :: ns else n :: insertByTs m ns

/-- Ascending sort by timestamp: the `orderBy('timestamp', 'asc')` clause
of the subscription queries. -/
def sortByTs : List Msg → List Msg
  | [] => []
  | m :: ms => insertByTs m (sortByTs ms)

/-- The two message collections the page queries: `messages` (1:1 and
group chats) and `aiMessages` (the AI stream). -/
structure MsgStore where
  messages : List Msg
  aiMessages : List Msg
deriving DecidableEq

/-- Which collection a query runs against. -/
def queryCollection (store : MsgStore) : MsgQuery → List Msg
  | .conv _ => store.messages
  | .group _ => store.messages
  | .ai _ => store.aiMessages

/-- Store semantics of the subscription query: equality filter, ascending
order by timestamp, `limit(50)` (the limit keeps the first 50 results in
query order). -/
def runMsgQuery (store : MsgStore) (q : MsgQuery) : List Msg :=
  (sortByTs ((queryCollection store q).filter (matchesQuery q))).take 50

/-- The messages slice of the component state. -/
structure ChatMessagesState where
  messages : List Msg
deriving DecidableEq

/-- The synchronous body of the messages effect (Chat.jsx lines 87 to 127)
as run on a selection change, before any snapshot arrives: with no target
selected it clears `messages` (`setMessages([])`, line 112); with a target
selected it only builds the query and subscribes, leaving `messages`
untouched. -/
def messagesEffectSync (currentUid : String) (s : SelState)
    (st : ChatMessagesState) : ChatMessagesState :=
  match messagesQuery currentUid s with
  | none => { st with messages := [] }
  | some _ => st

/-- Snapshot delivery (Chat.jsx lines 116 to 124): the messages slice is
replaced wholesale by the snapshot contents. -/
def applyMessagesSnapshot (st : ChatMessagesState) (docs : List Msg) :
    ChatMessagesState :=
  { st with messages := docs }

/-! ### AI turn handling (the `selectedAI` branch of `handleSubmit`) -/

/-- The file metadata the AI branch consults (`selectedFile.name`,
`selectedFile.type`). -/
structure FileData where
  name : String
  type : String
deriving DecidableEq

/-- `type.startsWith('image/')`. -/
def jsStartsWith (s p : String) : Bool := p.data.isPrefixOf s.data

/-- `type.split('/')[0]`: the characters before the first slash. -/
def mimeMajor (t : String) : String := ⟨t.data.takeWhile (fun c => c ≠ '/')⟩

/-- A request sent to the generation backend: a plain text prompt, or a
multimodal prompt carrying inline image data of a given MIME type. -/
inductive GenRequest where
  | textPrompt (prompt : String)
  | multimodal (prompt : String) (mimeType : String)
deriving DecidableEq

/-- A document of the `aiMessages` collection as the page writes it; a
missing `isError` field is modelled as `false` (the page reads it as a
falsy value). -/
structure AiMessage where
  text : String
  userId : String
  isAI : Bool
  isError : Bool := false
deriving DecidableEq

/-- The fixed apology text persisted when the generation step throws. -/
def aiErrorText : String :=
  "Sorry, I encountered an error while processing your request. Please try again."

/-- The canned acknowledgment for a non-image attachment (Chat.jsx line
241): it names the detected MIME category and the file name, and appends
the user text when one was supplied. -/
def aiAckText (f : FileData) (prompt : String) : String :=
  "I received your " ++ mimeMajor f.type ++ " file \"" ++ f.name ++ "\". " ++
    (if prompt = "" then "How can I help you with this file?"
     else "Regarding your message: " ++ prompt)

/-- The AI branch of `handleSubmit` (Chat.jsx lines 187 to 276) for one
user turn.  Store appends are the reliable collaborator of the spec, so
the function returns the list of documents appended to `aiMessages` in
order, together with the request sent to the generation backend (`none`
when the backend was not invoked).  The inner `try`/`catch` absorbs a
backend failure into the fixed apology message; the function is total, so
a generation failure is never propagated to the caller. -/
def aiTurn (currentUid : String) (newMessage : String) (file : Option FileData)
    (gen : GenRequest → Except Unit String) : List AiMessage × Option GenRequest :=
  let userMessage : AiMessage := ⟨newMessage, currentUid, false, false⟩
  match file with
  | some f =>
    if jsStartsWith f.type "image/" then
      let req := GenRequest.multimodal
        (if newMessage = "" then "What do you see in this image?" else newMessage)
        f.type
      match gen req with
      | .ok aiText => ([userMessage, ⟨aiText, currentUid, true, false⟩], some req)
      | .error _ => ([userMessage, ⟨aiErrorText, currentUid, true, true⟩], some req)
    else
      ([userMessage, ⟨aiAckText f newMessage, currentUid, true, false⟩], none)
  | none =>
    let req := GenRequest.textPrompt newMessage
    match gen req with
    | .ok aiText => ([userMessage, ⟨aiText, currentUid, true, false⟩], some req)
    | .error _ => ([userMessage, ⟨aiErrorText, currentUid, true, true⟩], some req)

/-! ### Draft handling of `handleSubmit` -/

/-- The draft input of the composer: `newMessage` and `selectedFile`. -/
structure Draft where
  newMessage : String
  selectedFile : Option FileData
deriving DecidableEq

/-- The result of the Cloudinary upload the page consumes. -/
structure UploadResult where
  url : String
  publicId : String := ""
  resourceType : String := ""
deriving DecidableEq

/-- `!s.trim()`: the string contains no non-whitespace character. -/
def isBlank (s : String) : Bool := s.data.all Char.isWhitespace

/-- The draft/notification skeleton of `handleSubmit` (Chat.jsx lines 168
to 306).  `upload` is the outcome of `uploadFileToCloudinary` (consulted
only when a file is selected) and `append` the combined outcome of the
store appends that are not absorbed by the inner AI `try`/`catch`.  The
result is the new draft plus the number of `alert` failure notifications:
the guard returns unchanged; a thrown upload or append lands in the outer
`catch` (one `alert`, draft untouched); on success the draft is cleared
(`setNewMessage('')`, `setSelectedFile(null)`). -/
def handleSubmit (d : Draft) (s : SelState)
    (upload : Except Unit UploadResult) (append : Except Unit Unit) :
    Draft × Nat :=
  if (isBlank d.newMessage ∧ d.selectedFile = none) ∨
      (s.selectedUser = none ∧ s.selectedGroup = none ∧ s.selectedAI = false) then
    (d, 0)
  else
    match d.selectedFile, upload with
    | some _, .error _ => (d, 1)
    | _, _ =>
      match append with
      | .error _ => (d, 1)
      | .ok _ => (⟨"", none⟩, 0)

/-- Success of a send: the upload succeeded whenever a file was attached,
and the store append succeeded. -/
def sendSucceeds (d : Draft) (upload : Except Unit UploadResult)
    (append : Except Unit Unit) : Prop :=
  (d.selectedFile = none ∨ ∃ u, upload = .ok u) ∧ append = .ok ()

/-! ### Forwarding (`handleForwardMessage`) -/

/-- The fields of a message being forwarded that `handleForwardMessage`
reads (`text`, `uid`, `isAI`, `fileData`). -/
structure OrigMessage where
  text : String
  uid : Option String
  isAI : Bool
  fileData : Option FileData
deriving DecidableEq

/-- A new message document as written by `handleForwardMessage`
(Chat.jsx lines 347 to 359). -/
structure ForwardedMsg where
  text : String
  uid : String
  timestamp : Nat
  forwarded : Bool
  originalSender : String
  fileData : Option FileData
  photoURL : Option String
  displayName : String
  conversationId : String
  receiverId : String
deriving DecidableEq

/-- The conversation-metadata patch written with `{ merge: true }`
(Chat.jsx lines 362 to 370). -/
structure ConvoPatch where
  participants : List String
  lastMessage : String
  lastMessageTimestamp : Nat
  unreadCount : List (String × Nat)
deriving DecidableEq

/-- A conversation-metadata document; `extra` stands for any unrelated
fields already present in the stored document, and `unreadCount` is an
association map read through its first matching key. -/
structure ConvoDoc where
  participants : List String := []
  lastMessage : String := ""
  lastMessageTimestamp : Nat := 0
  unreadCount : List (String × Nat) := []
  extra : List (String × String) := []
deriving DecidableEq

/-- Firestore `set(ref, patch, { merge: true })`: the top-level fields
present in the patch are overwritten, nested map entries of the patch are
merged into the stored map (patched keys shadow stored ones), and fields
absent from the patch survive unchanged. -/
def mergeConvo (old : ConvoDoc) (p : ConvoPatch) : ConvoDoc :=
  { participants := p.participants
    lastMessage := p.lastMessage
    lastMessageTimestamp := p.lastMessageTimestamp
    unreadCount := p.unreadCount ++ old.unreadCount
    extra := old.extra }

/-- One write of the forward batch: a new message document, or a merge
upsert of a conversation-metadata document. -/
inductive BatchWrite where
  | newMessage (m : ForwardedMsg)
  | convoMerge (id : String) (patch : ConvoPatch)
deriving DecidableEq

/-- The new message document built for one recipient (Chat.jsx lines 347
to 359): fresh sender identity, `forwarded: true`, `originalSender`
falling back to "AI" or "Unknown", original text and file data carried
unchanged. -/
def forwardedMsgFor (currentUid : String) (photoURL : Option String)
    (displayName : String) (message : OrigMessage) (uid : String) (now : Nat) :
    ForwardedMsg :=
  { text := message.text
    uid := currentUid
    timestamp := now
    forwarded := true
    originalSender := jsOrString message.uid (if message.isAI then "AI" else "Unknown")
    fileData := message.fileData
    photoURL := photoURL
    displayName := displayName
    conversationId := conversationKey currentUid uid
    receiverId := uid }

/-- The conversation-metadata patch built for one recipient (Chat.jsx
lines 363 to 368): participants, last message (text, or a paperclip
prefixed file name when the text is empty, or "File"), timestamp, and an
unread count of 1 for that recipient only. -/
def forwardConvoPatch (currentUid uid : String) (message : OrigMessage)
    (now : Nat) : ConvoPatch :=
  { participants := sortPair currentUid uid
    lastMessage :=
      if message.text = "" then
        match message.fileData with
        | some f => "📎 " ++ f.name
        | none => "File"
      else message.text
    lastMessageTimestamp := now
    unreadCount := [(uid, 1)] }

/-- The batch assembled by the loop of `handleForwardMessage` (Chat.jsx
lines 342 to 371): for each recipient, one new message document and one
metadata merge upsert. -/
def forwardWrites (currentUid : String) (photoURL : Option String)
    (displayName : String) (message : OrigMessage) (recipientIds : List String)
    (now : Nat) : List BatchWrite :=
  recipientIds.flatMap fun uid =>
    [BatchWrite.newMessage (forwardedMsgFor currentUid photoURL displayName message uid now),
     BatchWrite.convoMerge (conversationKey currentUid uid)
       (forwardConvoPatch currentUid uid message now)]

/-- The store slices `handleForwardMessage` writes: the `messages`
collection and the `conversations` collection (keyed by conversation id). -/
structure FwdStore where
  messages : List ForwardedMsg
  conversations : List (String × ConvoDoc)
deriving DecidableEq

/-- Applying one committed write to the store: a new message document is
appended; a merge upsert rewrites the addressed conversation document
(merging into an empty document when none exists). -/
def applyWrite (st : FwdStore) : BatchWrite → FwdStore
  | .newMessage m => { st with messages := st.messages ++ [m] }
  | .convoMerge id p =>
    let old := (st.conversations.lookup id).getD {}
    { st with
        conversations :=
          (id, mergeConvo old p) :: st.conversations.filter (fun kv => kv.1 != id) }

/-- `writeBatch`/`batch.commit()`: the store validates every write of the
batch (validity modelled by the predicate `valid`); if all are valid the
writes are applied in order, otherwise the commit rejects and the store is
left untouched. -/
def commitBatch (valid : BatchWrite → Bool) (st : FwdStore)
    (batch : List BatchWrite) : Except Unit FwdStore :=
  if batch.all valid then .ok (batch.foldl applyWrite st) else .error ()

/-- `handleForwardMessage` (Chat.jsx lines 337 to 379): assemble the batch
over all recipients, commit it, and on a rejected commit fall into the
`catch` (store unchanged, one `alert`).  The result is the new store and
the number of failure alerts. -/
def handleForwardMessage (valid : BatchWrite → Bool) (currentUid : String)
    (photoURL : Option String) (displayName : String) (message : OrigMessage)
    (recipientIds : List String) (now : Nat) (st : FwdStore) : FwdStore × Nat :=
  match commitBatch valid st
      (forwardWrites currentUid photoURL displayName message recipientIds now) with
  | .ok st' => (st', 0)
  | .error _ => (st, 1)

/-! ### Presence and typing maps -/

/-- The value stored per uid in the `userStatus` map. -/
structure StatusEntry where
  status : String
  lastChanged : Option Nat
deriving DecidableEq

/-- The raw value delivered by the realtime-database status snapshot
(`snapshot.val()` may be `null`, and its fields may be missing). -/
structure StatusData where
  status : Option String := none
  lastChanged : Option Nat := none
deriving DecidableEq

/-- The status snapshot handler (Chat.jsx lines 134 to 143):
`setUserStatus(prev => ({ ...prev, [uid]: ... }))` overwrites the entry of
the watched uid (status falling back to "offline") and keeps every other
entry. -/
def applyStatusSnapshot (uid : String) (data : Option StatusData)
    (prev : String → Option StatusEntry) : String → Option StatusEntry :=
  fun k =>
    if k = uid then
      some ⟨jsOrString (data.bind (·.status)) "offline", data.bind (·.lastChanged)⟩
    else prev k

/-- The typing snapshot handler (Chat.jsx lines 153 to 158):
`setTypingStatus(prev => ({ ...prev, [uid]: snapshot.val() }))`; the raw
value (possibly `null`) is stored under the watched uid. -/
def applyTypingSnapshot (uid : String) (v : Option String)
    (prev : String → Option (Option String)) : String → Option (Option String) :=
  fun k => if k = uid then some v else prev k

/-- The cleanup of the status effect (Chat.jsx line 145) only calls
`off(statusRef)`; it performs no state update, so the map is unchanged. -/
def statusEffectCleanup (m : String → Option StatusEntry) :
    String → Option StatusEntry := m

/-- The cleanup of the typing effect (Chat.jsx line 160) only calls
`off(typingRef)`; it performs no state update, so the map is unchanged. -/
def typingEffectCleanup (m : String → Option (Option String)) :
    String → Option (Option String) := m

/-! ### Concrete inputs used by counterexamples -/

/-- A stream of 51 messages of one conversation with strictly increasing
timestamps 0 to 50. -/
def c2Stream : List Msg :=
  (List.range 51).map fun i => { conversationId := some "a_b", timestamp := i }

/-- A store whose `messages` collection holds exactly `c2Stream`. -/
def c2Store : MsgStore := ⟨c2Stream, []⟩

/-- The newest message of `c2Stream`. -/
def c2Newest : Msg := { conversationId := some "a_b", timestamp := 50 }

/-- A message of the conversation of the current user "alice" with "bob". -/
def c4OldMsg : Msg :=
  { conversationId := some (conversationKey "alice" "bob"), timestamp := 1 }

/-! ### String and key lemmas -/

theorem string_data_ext {s t : String} (h : s.data = t.data) : s = t := by
  cases s; cases t; exact congrArg String.mk h

theorem string_data_append (s t : String) : (s ++ t).data = s.data ++ t.data := by
  cases s; cases t; rfl

theorem charsLe_total : ∀ l₁ l₂ : List Char, charsLe l₁ l₂ = true ∨ charsLe l₂ l₁ = true
  | [], _ => Or.inl rfl
  | _ :: _, [] => Or.inr rfl
  | c :: cs, d :: ds => by
    by_cases hcd : c < d
    · left; simp [charsLe, hcd]
    · by_cases hdc : d < c
      · right; simp [charsLe, hdc]
      · rcases charsLe_total cs ds with h | h
        · left; simp [charsLe, hcd, hdc, h]
        · right; simp [charsLe, hcd, hdc, h]

theorem charsLe_antisymm : ∀ l₁ l₂ : List Char,
    charsLe l₁ l₂ = true → charsLe l₂ l₁ = true → l₁ = l₂
  | [], [], _, _ => rfl
  | [], _ :: _, _, h₂ => by simp [charsLe] at h₂
  | _ :: _, [], h₁, _ => by simp [charsLe] at h₁
  | c :: cs, d :: ds, h₁, h₂ => by
    by_cases hcd : c < d
    · have hdc : ¬ d < c := lt_asymm hcd
      simp [charsLe, hcd, hdc] at h₂
    · by_cases hdc : d < c
      · simp [charsLe, hcd, hdc] at h₁
      · have hcdeq : c = d := le_antisymm (le_of_not_lt hdc) (le_of_not_lt hcd)
        subst hcdeq
        simp only [charsLe, lt_irrefl, if_false] at h₁ h₂
        exact congrArg (c :: ·) (charsLe_antisymm cs ds h₁ h₂)

theorem strLe_total (a b : String) : strLe a b = true ∨ strLe b a = true :=
  charsLe_total a.data b.data

theorem strLe_antisymm {a b : String} (h₁ : strLe a b = true) (h₂ : strLe b a = true) :
    a = b :=
  string_data_ext (charsLe_antisymm a.data b.data h₁ h₂)

theorem conversationKey_comm (a b : String) : conversationKey a b = conversationKey b a := by
  by_cases h₁ : strLe a b = true
  · by_cases h₂ : strLe b a = true
    · have hab : a = b := strLe_antisymm h₁ h₂
      subst hab; rfl
    · simp [conversationKey, h₁, h₂]
  · have h₂ : strLe b a = true := (strLe_total a b).resolve_left h₁
    simp [conversationKey, h₁, h₂]

theorem append_sep_inj : ∀ (l₁ l₂ r₁ r₂ : List Char), '_' ∉ l₁ → '_' ∉ l₂ →
    l₁ ++ '_' :: r₁ = l₂ ++ '_' :: r₂ → l₁ = l₂ ∧ r₁ = r₂
  | [], [], r₁, r₂, _, _, h => ⟨rfl, by simpa using h⟩
  | [], c :: cs, r₁, r₂, _, h₂, h => by
    simp only [List.nil_append, List.cons_append, List.cons.injEq] at h
    exact absurd (List.mem_cons.mpr (Or.inl h.1)) h₂
  | c :: cs, [], r₁, r₂, h₁, _, h => by
    simp only [List.nil_append, List.cons_append, List.cons.injEq] at h
    exact absurd (List.mem_cons.mpr (Or.inl h.1.symm)) h₁
  | c :: cs, d :: ds, r₁, r₂, h₁, h₂, h => by
    simp only [List.cons_append, List.cons.injEq] at h
    obtain ⟨hcd, htail⟩ := h
    subst hcd
    obtain ⟨hl, hr⟩ := append_sep_inj cs ds r₁ r₂
      (fun hm => h₁ (List.mem_cons_of_mem c hm)) (fun hm => h₂ (List.mem_cons_of_mem c hm)) htail
    exact ⟨by rw [hl], hr⟩

theorem conversationKey_append_inj {a b c d : String}
    (ha : '_' ∉ a.data) (hc : '_' ∉ c.data)
    (h : a ++ "_" ++ b = c ++ "_" ++ d) : a = c ∧ b = d := by
  have hsep : ("_" : String).data = ['_'] := rfl
  have hdata : a.data ++ '_' :: b.data = c.data ++ '_' :: d.data := by
    have h' := congrArg String.data h
    simpa [string_data_append, hsep] using h'
  obtain ⟨h₁, h₂⟩ := append_sep_inj a.data c.data b.data d.data ha hc hdata
  exact ⟨string_data_ext h₁, string_data_ext h₂⟩

theorem conversationKey_inj_of_sep_free {a b c d : String}
    (ha : '_' ∉ a.data) (hb : '_' ∉ b.data) (hc : '_' ∉ c.data) (hd : '_' ∉ d.data)
    (h : conversationKey a b = conversationKey c d) :
    (a = c ∧ b = d) ∨ (a = d ∧ b = c) := by
  unfold conversationKey at h
  by_cases h₁ : strLe a b = true <;> by_cases h₂ : strLe c d = true <;>
    simp only [h₁, h₂, if_true, if_false, Bool.false_eq_true, if_neg] at h
  · exact Or.inl (conversationKey_append_inj ha hc h)
  · exact Or.inr (conversationKey_append_inj ha hd h)
  · obtain ⟨hbc, had⟩ := conversationKey_append_inj hb hc h
    exact Or.inr ⟨had, hbc⟩
  · obtain ⟨hbd, hac⟩ := conversationKey_append_inj hb hd h
    exact Or.inl ⟨hac, hbd⟩

/-! ### Claim theorems -/

/-- C1 (amended): the conversation key is symmetric in the two uids and is
computed by sorting the two ids and joining with the separator; for uids
that do not contain the separator character, distinct unordered pairs
derive distinct keys.  (For arbitrary uid strings the collision-freeness
part of the claim fails, see the counterexample.) -/
theorem c1_conversationKey_symm_and_inj (a b c d : String) :
    conversationKey a b = conversationKey b a ∧
    ('_' ∉ a.data → '_' ∉ b.data → '_' ∉ c.data → '_' ∉ d.data →
      conversationKey a b = conversationKey c d →
      (a = c ∧ b = d) ∨ (a = d ∧ b = c)) :=
  ⟨conversationKey_comm a b,
   fun ha hb hc hd h => conversationKey_inj_of_sep_free ha hb hc hd h⟩

/-- C1 witness: the amended statement evaluated at the pair
("alice", "bob"). -/
theorem c1_witness :
    conversationKey "alice" "bob" = conversationKey "bob" "alice" ∧
    (("alice" = "alice" ∧ "bob" = "bob") ∨ ("alice" = "bob" ∧ "bob" = "alice")) :=
  ⟨(c1_conversationKey_symm_and_inj "alice" "bob" "alice" "bob").1,
   (c1_conversationKey_symm_and_inj "alice" "bob" "alice" "bob").2
     (by decide) (by decide) (by decide) (by decide) rfl⟩

/-- C1 counterexample: two distinct unordered pairs of uids whose derived
conversation keys coincide (uids may contain the separator character), so
the collision-freeness part of the claim is false as stated. -/
theorem c1_counterexample_underscore_collision :
    conversationKey "a" "b_c" = conversationKey "a_b" "c" ∧
    ¬ (("a" = "a_b" ∧ "b_c" = "c") ∨ ("a" = "c" ∧ "b_c" = "a_b")) := by
  constructor
  · decide
  · decide

/-! ### Sorting lemmas for the query window -/

theorem insertByTs_perm (m : Msg) (l : List Msg) : (insertByTs m l).Perm (m :: l) := by
  induction l with
  | nil => exact List.Perm.refl _
  | cons n ns ih =>
    by_cases h : tsLe m n = true
    · simp [insertByTs, h]
    · simp only [insertByTs, h, Bool.false_eq_true, if_false]
      exact (ih.cons n).trans (List.Perm.swap m n ns)

theorem sortByTs_perm (l : List Msg) : (sortByTs l).Perm l := by
  induction l with
  | nil => exact List.Perm.refl _
  | cons m ms ih => exact (insertByTs_perm m (sortByTs ms)).trans (ih.cons m)

theorem mem_insertByTs {x m : Msg} {l : List Msg} :
    x ∈ insertByTs m l ↔ x = m ∨ x ∈ l := by
  rw [(insertByTs_perm m l).mem_iff, List.mem_cons]

theorem pairwise_insertByTs {m : Msg} {l : List Msg}
    (h : l.Pairwise (fun a b => a.timestamp ≤ b.timestamp)) :
    (insertByTs m l).Pairwise (fun a b => a.timestamp ≤ b.timestamp) := by
  induction l with
  | nil => simp [insertByTs]
  | cons n ns ih =>
    obtain ⟨hn, hns⟩ := List.pairwise_cons.mp h
    by_cases hle : tsLe m n = true
    · have hmn : m.timestamp ≤ n.timestamp := by simpa [tsLe] using hle
      simp only [insertByTs, hle, if_true]
      refine List.pairwise_cons.mpr ⟨?_, h⟩
      intro x hx
      rcases List.mem_cons.mp hx with rfl | hx
      · exact hmn
      · exact hmn.trans (hn x hx)
    · have hnm : n.timestamp ≤ m.timestamp := by
        have hgt : ¬ m.timestamp ≤ n.timestamp := by simpa [tsLe] using hle
        exact le_of_not_le hgt
      simp only [insertByTs, hle, Bool.false_eq_true, if_false]
      refine List.pairwise_cons.mpr ⟨?_, ih hns⟩
      intro x hx
      rcases mem_insertByTs.mp hx with rfl | hx
      · exact hnm
      · exact hn x hx

theorem sortByTs_pairwise (l : List Msg) :
    (sortByTs l).Pairwise (fun a b => a.timestamp ≤ b.timestamp) := by
  induction l with
  | nil => simp [sortByTs]
  | cons m ms ih => exact pairwise_insertByTs ih

theorem pairwise_take_drop {R : Msg → Msg → Prop} {l : List Msg} (h : l.Pairwise R)
    (n : Nat) : ∀ a ∈ l.take n, ∀ b ∈ l.drop n, R a b := by
  rw [← List.take_append_drop n l, List.pairwise_append] at h
  exact h.2.2

/-- C2 (amended): for every target query the delivered window is ordered by
timestamp ascending, matches the target filter, and is capped at 50
messages; when more than 50 messages match, the window consists of the 50
oldest matching messages (every delivered message is no newer than every
matching message left out), not the 50 newest as claimed. -/
theorem c2_query_window_oldest (store : MsgStore) (q : MsgQuery) :
    (runMsgQuery store q).Pairwise (fun a b => a.timestamp ≤ b.timestamp) ∧
    (runMsgQuery store q).length =
      min 50 ((queryCollection store q).filter (matchesQuery q)).length ∧
    (∀ m ∈ runMsgQuery store q, matchesQuery q m = true ∧ m ∈ queryCollection store q) ∧
    (∀ a ∈ runMsgQuery store q,
      ∀ b ∈ (sortByTs ((queryCollection store q).filter (matchesQuery q))).drop 50,
        a.timestamp ≤ b.timestamp) := by
  refine ⟨?_, ?_, ?_, ?_⟩
  · exact (sortByTs_pairwise _).sublist (List.take_sublist _ _)
  · rw [runMsgQuery, List.length_take, (sortByTs_perm _).length_eq]
  · intro m hm
    have hm' : m ∈ (queryCollection store q).filter (matchesQuery q) :=
      (sortByTs_perm _).mem_iff.mp ((List.take_sublist _ _).mem hm)
    exact ⟨(List.mem_filter.mp hm').2, (List.mem_filter.mp hm').1⟩
  · exact pairwise_take_drop (sortByTs_pairwise _) 50

/-- C2 witness: the amended statement evaluated on a concrete store of 51
matching messages. -/
theorem c2_witness :
    (runMsgQuery c2Store (.conv "a_b")).length =
      min 50 ((queryCollection c2Store (.conv "a_b")).filter
        (matchesQuery (.conv "a_b"))).length ∧
    matchesQuery (.conv "a_b") ⟨some "a_b", none, none, 0⟩ = true :=
  ⟨(c2_query_window_oldest c2Store (.conv "a_b")).2.1,
   ((c2_query_window_oldest c2Store (.conv "a_b")).2.2.1
     ⟨some "a_b", none, none, 0⟩ (by decide)).1⟩

/-- C2 counterexample: with 51 matching messages of timestamps 0 to 50 the
query delivers 50 messages but omits the newest one (timestamp 50), so the
window is the oldest 50, not the newest 50 as claimed. -/
theorem c2_counterexample_newest_dropped :
    c2Newest ∈ queryCollection c2Store (.conv "a_b") ∧
    matchesQuery (.conv "a_b") c2Newest = true ∧
    (∀ m ∈ queryCollection c2Store (.conv "a_b"), m.timestamp ≤ c2Newest.timestamp) ∧
    (runMsgQuery c2Store (.conv "a_b")).length = 50 ∧
    c2Newest ∉ runMsgQuery c2Store (.conv "a_b") := by
  refine ⟨by decide, by decide, by decide, by decide, by decide⟩

/-- C3 (amended): selecting a user, selecting a group, or navigating to the
AI page each leave exactly one of the three selection fields truthy, and
every selection operation preserves the at-most-one invariant; navigating
to a non-AI page, however, only clears the AI flag and can leave all three
fields unset (see the counterexample), so "exactly one after any selection
operation" does not hold for it. -/
theorem c3_selection_exclusivity (u : Profile) (g : ChatGroup) (s : SelState)
    (page : String) :
    truthyCount (onUserSelect u s) = 1 ∧
    truthyCount (onGroupSelect g s) = 1 ∧
    truthyCount (handleNavigate "ai" s) = 1 ∧
    (truthyCount s ≤ 1 → truthyCount (handleNavigate page s) ≤ 1) := by
  refine ⟨rfl, rfl, rfl, ?_⟩
  intro h
  by_cases hp : page = "ai"
  · simp [handleNavigate, hp, truthyCount]
  · obtain ⟨su, sg, sa⟩ := s
    cases su <;> cases sg <;> cases sa <;>
      simp [handleNavigate, hp, truthyCount] at h ⊢

/-- C3 witness: the amended statement evaluated at a concrete user
selection followed by a navigation to a non-AI page. -/
theorem c3_witness :
    truthyCount (onUserSelect ⟨"bob", none, none⟩ initialSelState) = 1 ∧
    truthyCount (handleNavigate "home" (onUserSelect ⟨"bob", none, none⟩ initialSelState)) ≤ 1 :=
  ⟨(c3_selection_exclusivity ⟨"bob", none, none⟩ ⟨"g1"⟩ initialSelState "home").1,
   (c3_selection_exclusivity ⟨"bob", none, none⟩ ⟨"g1"⟩
     (onUserSelect ⟨"bob", none, none⟩ initialSelState) "home").2.2.2 (by decide)⟩

/-- C3 counterexample: navigating to the AI page and then to a non-AI page
are both selection operations, yet after the second one none of the three
selection fields is set, refuting "no selection operation leaves all three
unset". -/
theorem c3_counterexample_navigate_home :
    truthyCount (handleNavigate "ai" initialSelState) = 1 ∧
    truthyCount (handleNavigate "home" (handleNavigate "ai" initialSelState)) = 0 := by
  exact ⟨by decide, by decide⟩

/-- C4 (amended): the messages effect clears the messages slice
synchronously only when the selection change leaves no target selected;
when switching to another target it leaves the previous list in place
until the first snapshot of the new subscription replaces the slice
wholesale. -/
theorem c4_effect_clear_behavior (cur : String) (s : SelState)
    (st : ChatMessagesState) (docs : List Msg) :
    (messagesQuery cur s = none → (messagesEffectSync cur s st).messages = []) ∧
    (∀ q, messagesQuery cur s = some q → messagesEffectSync cur s st = st) ∧
    (applyMessagesSnapshot st docs).messages = docs := by
  refine ⟨fun h => ?_, fun q h => ?_, rfl⟩
  · simp [messagesEffectSync, h]
  · simp [messagesEffectSync, h]

/-- C4 witness: the amended statement evaluated at a deselection (messages
cleared) and at a snapshot application (slice replaced). -/
theorem c4_witness :
    (messagesEffectSync "alice" initialSelState ⟨[c4OldMsg]⟩).messages = [] ∧
    (applyMessagesSnapshot ⟨[]⟩ [c4OldMsg]).messages = [c4OldMsg] :=
  ⟨(c4_effect_clear_behavior "alice" initialSelState ⟨[c4OldMsg]⟩ []).1 rfl,
   (c4_effect_clear_behavior "alice" initialSelState ⟨[]⟩ [c4OldMsg]).2.2⟩

/-- C4 counterexample: switching from the conversation with "bob" to the
one with "carol" leaves the old message in the state (it is not cleared
before the new subscription), even though that message does not match the
new target's filter, refuting "the messages state is cleared synchronously
before the new subscription is established". -/
theorem c4_counterexample_stale_messages :
    (messagesEffectSync "alice" ⟨some ⟨"carol", none, none⟩, none, false⟩
      ⟨[c4OldMsg]⟩).messages = [c4OldMsg] ∧
    matchesQuery (.conv (conversationKey "alice" "carol")) c4OldMsg = false ∧
    matchesQuery (.conv (conversationKey "alice" "bob")) c4OldMsg = true := by
  refine ⟨by decide, by decide, by decide⟩

/-- C5: for every single AI user turn (text-only, image attachment,
non-image attachment, failing backend) exactly one message tagged
`isAI = true` is appended to the AI stream; its `isError` flag is true
exactly when the generation step was invoked and failed (`aiTurn` is a
total function, so a generation failure is never propagated to the caller
as a raised error). -/
theorem c5_ai_turn_totality (cur msg : String) (file : Option FileData)
    (gen : GenRequest → Except Unit String) :
    ((aiTurn cur msg file gen).1.countP (fun m => m.isAI) = 1) ∧
    (∀ m ∈ (aiTurn cur msg file gen).1, m.isAI = true →
      (((aiTurn cur msg file gen).2 = none → m.isError = false) ∧
       (∀ req, (aiTurn cur msg file gen).2 = some req →
         (m.isError = true ↔ gen req = .error ())))) := by
  rcases file with _ | f
  · rcases hg : gen (GenRequest.textPrompt msg) with e | t <;>
      simp [aiTurn, hg, List.countP_cons]
  · by_cases him : jsStartsWith f.type "image/" = true
    · rcases hg : gen (GenRequest.multimodal
          (if msg = "" then "What do you see in this image?" else msg) f.type) with e | t <;>
        simp [aiTurn, him, hg, List.countP_cons]
    · simp [aiTurn, him, List.countP_cons]

/-- C5 witness: a text-only turn against a failing backend appends exactly
one assistant-tagged message, and that message carries the error flag. -/
theorem c5_witness :
    ((aiTurn "u1" "hi" none (fun _ => Except.error ())).1.countP (fun m => m.isAI) = 1) ∧
    ((AiMessage.mk aiErrorText "u1" true true).isError = true ↔
      (fun _ : GenRequest => (Except.error () : Except Unit String))
        (GenRequest.textPrompt "hi") = Except.error ()) :=
  ⟨(c5_ai_turn_totality "u1" "hi" none (fun _ => Except.error ())).1,
   ((c5_ai_turn_totality "u1" "hi" none (fun _ => Except.error ())).2
     (AiMessage.mk aiErrorText "u1" true true) (by decide) rfl).2
     (GenRequest.textPrompt "hi") rfl⟩

/-- C6: for an AI turn with a non-image attachment the generation backend
is not invoked; the persisted assistant message is the canned
acknowledgment whose text contains the MIME category and the file name,
with the user text appended when one was supplied. -/
theorem c6_non_image_ack (cur msg : String) (f : FileData)
    (gen : GenRequest → Except Unit String)
    (him : jsStartsWith f.type "image/" = false) :
    (aiTurn cur msg (some f) gen).2 = none ∧
    (aiTurn cur msg (some f) gen).1 =
      [⟨msg, cur, false, false⟩, ⟨aiAckText f msg, cur, true, false⟩] ∧
    (∃ s₁ s₂ s₃, aiAckText f msg = s₁ ++ (mimeMajor f.type ++ (s₂ ++ (f.name ++ s₃)))) ∧
    (msg ≠ "" → ∃ s₄, aiAckText f msg = s₄ ++ msg) := by
  refine ⟨by simp [aiTurn, him], by simp [aiTurn, him], ?_, ?_⟩
  · refine ⟨"I received your ", " file \"",
      "\". " ++ (if msg = "" then "How can I help you with this file?"
        else "Regarding your message: " ++ msg), ?_⟩
    simp [aiAckText, String.append_assoc]
  · intro hmsg
    refine ⟨"I received your " ++ mimeMajor f.type ++ " file \"" ++ f.name ++ "\". " ++
      "Regarding your message: ", ?_⟩
    simp only [aiAckText, if_neg hmsg, String.append_assoc]

/-- C6 witness: the statement evaluated at a PDF attachment with no user
text. -/
theorem c6_witness :
    (aiTurn "u1" "" (some ⟨"report.pdf", "application/pdf"⟩)
      (fun _ => Except.ok "unused")).2 = none ∧
    (aiTurn "u1" "" (some ⟨"report.pdf", "application/pdf"⟩)
      (fun _ => Except.ok "unused")).1 =
      [⟨"", "u1", false, false⟩,
       ⟨aiAckText ⟨"report.pdf", "application/pdf"⟩ "", "u1", true, false⟩] :=
  ⟨(c6_non_image_ack "u1" "" ⟨"report.pdf", "application/pdf"⟩
      (fun _ => Except.ok "unused") (by decide)).1,
   (c6_non_image_ack "u1" "" ⟨"report.pdf", "application/pdf"⟩
      (fun _ => Except.ok "unused") (by decide)).2.1⟩

/-- C7: for every send operation (one passing the submit guard), a failing
upload or store append produces exactly one failure notification and
leaves the draft untouched, and the draft is cleared exactly when the send
succeeds. -/
theorem c7_submit_draft (d : Draft) (s : SelState)
    (upload : Except Unit UploadResult) (append : Except Unit Unit)
    (hsend : ¬ ((isBlank d.newMessage ∧ d.selectedFile = none) ∨
      (s.selectedUser = none ∧ s.selectedGroup = none ∧ s.selectedAI = false))) :
    (¬ sendSucceeds d upload append →
      (handleSubmit d s upload append).2 = 1 ∧ (handleSubmit d s upload append).1 = d) ∧
    ((handleSubmit d s upload append).1 = ⟨"", none⟩ ∧
        (handleSubmit d s upload append).2 = 0 ↔ sendSucceeds d upload append) := by
  have hred : handleSubmit d s upload append =
      (match d.selectedFile, upload with
       | some _, .error _ => (d, 1)
       | _, _ =>
         match append with
         | .error _ => (d, 1)
         | .ok _ => (⟨"", none⟩, 0)) := by
    unfold handleSubmit
    rw [if_neg hsend]
  rw [hred]
  rcases hdf : d.selectedFile with _ | f <;>
    rcases upload with ⟨⟨⟩⟩ | ⟨u⟩ <;> rcases append with ⟨⟨⟩⟩ | ⟨⟨⟩⟩ <;>
    simp [sendSucceeds, hdf]

/-- C7 witness: a guard-passing send whose store append fails raises one
notification and keeps the draft. -/
theorem c7_witness :
    (handleSubmit ⟨"hello", none⟩ ⟨some ⟨"bob", none, none⟩, none, false⟩
      (Except.ok ⟨"u", "", ""⟩) (Except.error ())).2 = 1 ∧
    (handleSubmit ⟨"hello", none⟩ ⟨some ⟨"bob", none, none⟩, none, false⟩
      (Except.ok ⟨"u", "", ""⟩) (Except.error ())).1 = ⟨"hello", none⟩ :=
  (c7_submit_draft ⟨"hello", none⟩ ⟨some ⟨"bob", none, none⟩, none, false⟩
    (Except.ok ⟨"u", "", ""⟩) (Except.error ()) (by decide)).1
    (by simp [sendSucceeds])

/-! ### Forward batch lemmas -/

theorem foldl_applyWrite_messages (cur : String) (ph : Option String) (dn : String)
    (message : OrigMessage) (now : Nat) :
    ∀ (recips : List String) (st : FwdStore),
      (List.foldl applyWrite st (forwardWrites cur ph dn message recips now)).messages =
        st.messages ++ recips.map (fun uid => forwardedMsgFor cur ph dn message uid now) := by
  intro recips
  induction recips with
  | nil => intro st; simp [forwardWrites]
  | cons r rs ih =>
    intro st
    have h1 : forwardWrites cur ph dn message (r :: rs) now =
        [BatchWrite.newMessage (forwardedMsgFor cur ph dn message r now),
         BatchWrite.convoMerge (conversationKey cur r)
           (forwardConvoPatch cur r message now)] ++
          forwardWrites cur ph dn message rs now := by
      simp [forwardWrites]
    rw [h1, List.foldl_append, ih]
    simp [applyWrite]

/-- C8: the forward fan-out commits as one all-or-nothing batch: when every
per-recipient write is valid, one new message per recipient (duplicates
included) is appended and no failure is surfaced; when any write of the
batch is invalid, the whole store is left unchanged (no message inserted,
no metadata updated for any recipient) and one failure notification is
surfaced; an empty recipient list commits successfully as a no-op. -/
theorem c8_forward_atomicity (valid : BatchWrite → Bool) (cur : String)
    (ph : Option String) (dn : String) (message : OrigMessage)
    (recips : List String) (now : Nat) (st : FwdStore) :
    ((∀ w ∈ forwardWrites cur ph dn message recips now, valid w = true) →
      (handleForwardMessage valid cur ph dn message recips now st).1.messages =
        st.messages ++ recips.map (fun uid => forwardedMsgFor cur ph dn message uid now) ∧
      (handleForwardMessage valid cur ph dn message recips now st).2 = 0) ∧
    ((∃ w ∈ forwardWrites cur ph dn message recips now, valid w = false) →
      handleForwardMessage valid cur ph dn message recips now st = (st, 1)) ∧
    (recips = [] →
      handleForwardMessage valid cur ph dn message recips now st = (st, 0)) := by
  refine ⟨fun hall => ?_, fun hbad => ?_, fun hnil => ?_⟩
  · have hb : (forwardWrites cur ph dn message recips now).all valid = true :=
      List.all_eq_true.mpr hall
    simp only [handleForwardMessage, commitBatch, hb, if_true]
    exact ⟨foldl_applyWrite_messages cur ph dn message now recips st, trivial⟩
  · obtain ⟨w, hw, hv⟩ := hbad
    have hb : (forwardWrites cur ph dn message recips now).all valid = false := by
      by_cases h : (forwardWrites cur ph dn message recips now).all valid = true
      · exact absurd (List.all_eq_true.mp h w hw) (by simp [hv])
      · exact Bool.eq_false_iff.mpr h
    simp [handleForwardMessage, commitBatch, hb]
  · subst hnil
    simp [handleForwardMessage, commitBatch, forwardWrites]

/-- C8 witness: a duplicate two-element recipient list against a store that
accepts every write appends two copies of the forwarded message; a
recipient list whose writes are rejected leaves the store unchanged with
one notification; the empty list is a successful no-op. -/
theorem c8_witness :
    (handleForwardMessage (fun _ => true) "a" none "A"
        ⟨"hello", some "orig", false, none⟩ ["b", "b"] 7 ⟨[], []⟩).1.messages =
      [] ++ (["b", "b"].map
        (fun uid => forwardedMsgFor "a" none "A" ⟨"hello", some "orig", false, none⟩ uid 7)) ∧
    handleForwardMessage (fun _ => false) "a" none "A"
        ⟨"hello", some "orig", false, none⟩ ["b"] 7 ⟨[], []⟩ = (⟨[], []⟩, 1) ∧
    handleForwardMessage (fun _ => true) "a" none "A"
        ⟨"hello", some "orig", false, none⟩ [] 7 ⟨[], []⟩ = (⟨[], []⟩, 0) :=
  ⟨((c8_forward_atomicity (fun _ => true) "a" none "A"
      ⟨"hello", some "orig", false, none⟩ ["b", "b"] 7 ⟨[], []⟩).1
      (fun _ _ => rfl)).1,
   (c8_forward_atomicity (fun _ => false) "a" none "A"
      ⟨"hello", some "orig", false, none⟩ ["b"] 7 ⟨[], []⟩).2.1
      ⟨BatchWrite.newMessage (forwardedMsgFor "a" none "A"
        ⟨"hello", some "orig", false, none⟩ "b" 7), by simp [forwardWrites], rfl⟩,
   (c8_forward_atomicity (fun _ => true) "a" none "A"
      ⟨"hello", some "orig", false, none⟩ [] 7 ⟨[], []⟩).2.2 rfl⟩

/-- C9: the conversation-metadata write of a forward is a merge upsert: the
updated document (merged into the existing one, or into an empty document
when none exists) carries the sorted participants, the last-message text
(or the paperclip-prefixed file name for a textless message with a file),
the fresh timestamp, and an unread count of 1 for the recipient only;
unread-count entries of other keys and unrelated fields of the stored
document are unchanged. -/
theorem c9_convo_merge_upsert (st : FwdStore) (id : String) (p : ConvoPatch)
    (cur uid : String) (message : OrigMessage) (now : Nat) (old : ConvoDoc)
    (k : String) (hk : k ≠ uid) :
    ((applyWrite st (.convoMerge id p)).conversations.lookup id =
      some (mergeConvo ((st.conversations.lookup id).getD {}) p)) ∧
    (mergeConvo old (forwardConvoPatch cur uid message now)).participants =
      sortPair cur uid ∧
    (message.text ≠ "" →
      (mergeConvo old (forwardConvoPatch cur uid message now)).lastMessage =
        message.text) ∧
    (∀ f, message.text = "" → message.fileData = some f →
      (mergeConvo old (forwardConvoPatch cur uid message now)).lastMessage =
        "📎 " ++ f.name) ∧
    (mergeConvo old (forwardConvoPatch cur uid message now)).lastMessageTimestamp =
      now ∧
    (mergeConvo old (forwardConvoPatch cur uid message now)).unreadCount.lookup uid =
      some 1 ∧
    (mergeConvo old (forwardConvoPatch cur uid message now)).unreadCount.lookup k =
      old.unreadCount.lookup k ∧
    (mergeConvo old (forwardConvoPatch cur uid message now)).extra = old.extra := by
  refine ⟨?_, rfl, fun ht => ?_, fun f ht hf => ?_, rfl, ?_, ?_, rfl⟩
  · simp [applyWrite, List.lookup]
  · simp [mergeConvo, forwardConvoPatch, ht]
  · simp [mergeConvo, forwardConvoPatch, ht, hf]
  · simp [mergeConvo, forwardConvoPatch, List.lookup]
  · simp [mergeConvo, forwardConvoPatch, List.lookup, beq_eq_false_iff_ne.mpr hk]

/-- C9 witness: the statement evaluated on a stored document holding an
unread count for another participant and an unrelated extra field. -/
theorem c9_witness :
    (mergeConvo ⟨["a", "b"], "old", 3, [("a", 4)], [("color", "red")]⟩
      (forwardConvoPatch "a" "b" ⟨"hello", some "orig", false, none⟩ 7)).unreadCount.lookup "b" =
      some 1 ∧
    (mergeConvo ⟨["a", "b"], "old", 3, [("a", 4)], [("color", "red")]⟩
      (forwardConvoPatch "a" "b" ⟨"hello", some "orig", false, none⟩ 7)).unreadCount.lookup "a" =
      (⟨["a", "b"], "old", 3, [("a", 4)], [("color", "red")]⟩ : ConvoDoc).unreadCount.lookup "a" ∧
    (mergeConvo ⟨["a", "b"], "old", 3, [("a", 4)], [("color", "red")]⟩
      (forwardConvoPatch "a" "b" ⟨"hello", some "orig", false, none⟩ 7)).extra =
      (⟨["a", "b"], "old", 3, [("a", 4)], [("color", "red")]⟩ : ConvoDoc).extra :=
  ⟨(c9_convo_merge_upsert ⟨[], []⟩ "a_b" (forwardConvoPatch "a" "b" ⟨"hello", some "orig", false, none⟩ 7)
      "a" "b" ⟨"hello", some "orig", false, none⟩ 7
      ⟨["a", "b"], "old", 3, [("a", 4)], [("color", "red")]⟩ "a" (by decide)).2.2.2.2.2.1,
   (c9_convo_merge_upsert ⟨[], []⟩ "a_b" (forwardConvoPatch "a" "b" ⟨"hello", some "orig", false, none⟩ 7)
      "a" "b" ⟨"hello", some "orig", false, none⟩ 7
      ⟨["a", "b"], "old", 3, [("a", 4)], [("color", "red")]⟩ "a" (by decide)).2.2.2.2.2.2.1,
   (c9_convo_merge_upsert ⟨[], []⟩ "a_b" (forwardConvoPatch "a" "b" ⟨"hello", some "orig", false, none⟩ 7)
      "a" "b" ⟨"hello", some "orig", false, none⟩ 7
      ⟨["a", "b"], "old", 3, [("a", 4)], [("color", "red")]⟩ "a" (by decide)).2.2.2.2.2.2.2⟩

/-- C10: the presence and typing maps only grow or overwrite per-uid
entries: a snapshot for the watched uid sets that uid's entry and leaves
every other entry unchanged, and the effect cleanups run on unsubscribe or
deselection perform no state update at all, so no previously recorded
entry is ever removed. -/
theorem c10_presence_typing_monotone (uid : String) (data : Option StatusData)
    (prevS : String → Option StatusEntry) (v : Option String)
    (prevT : String → Option (Option String)) (k : String) (hk : k ≠ uid) :
    applyStatusSnapshot uid data prevS k = prevS k ∧
    (applyStatusSnapshot uid data prevS uid).isSome = true ∧
    applyTypingSnapshot uid v prevT k = prevT k ∧
    (applyTypingSnapshot uid v prevT uid).isSome = true ∧
    statusEffectCleanup prevS = prevS ∧
    typingEffectCleanup prevT = prevT := by
  refine ⟨?_, ?_, ?_, ?_, rfl, rfl⟩
  · simp [applyStatusSnapshot, hk]
  · simp [applyStatusSnapshot]
  · simp [applyTypingSnapshot, hk]
  · simp [applyTypingSnapshot]

/-- C10 witness: the statement evaluated on a concrete map holding an entry
for another uid. -/
theorem c10_witness :
    applyStatusSnapshot "bob" (some ⟨some "online", some 5⟩)
      (fun k => if k = "carol" then some ⟨"offline", none⟩ else none) "carol" =
      some ⟨"offline", none⟩ ∧
    (applyStatusSnapshot "bob" (some ⟨some "online", some 5⟩)
      (fun k => if k = "carol" then some ⟨"offline", none⟩ else none) "bob").isSome = true :=
  ⟨((c10_presence_typing_monotone "bob" (some ⟨some "online", some 5⟩)
      (fun k => if k = "carol" then some ⟨"offline", none⟩ else none) none
      (fun _ => none) "carol" (by decide)).1).trans (by simp),
   (c10_presence_typing_monotone "bob" (some ⟨some "online", some 5⟩)
      (fun k => if k = "carol" then some ⟨"offline", none⟩ else none) none
      (fun _ => none) "carol" (by decide)).2.1⟩
